import Mathlib

/-!
A shallow embedding of the request/response mediation layer of the
unsplash-mcp-server repository: the HTTP client's query building and
error normalisation (src/services/unsplash-client.ts) and the markdown
formatters with their length guard (src/services/formatters.ts).
JavaScript strings are modelled as Lean strings (lists of characters),
JavaScript numbers as integers (every number handled by this code is
integral), and absent (undefined) values as Option.
-/

namespace Unsplash

/-- Character for a single decimal digit. -/
def digitChar (d : Nat) : Char := Char.ofNat (48 + d)

/-- Emits the decimal digits of a number, least significant digit first onto the
accumulator, so the accumulator ends up most significant first.  Defined by fuel
recursion so that it evaluates by kernel reduction; a fuel of `n + 1` is always
sufficient. -/
def natDigitsAux : Nat → Nat → List Char → List Char
  | 0, _, acc => acc
  | fuel + 1, n, acc =>
    let acc2 := digitChar (n % 10) :: acc
    if n < 10 then acc2 else natDigitsAux fuel (n / 10) acc2

/-- Decimal rendering of a natural number, as JavaScript template interpolation
renders a non-negative integral number. -/
def natToString (n : Nat) : String := ⟨natDigitsAux (n + 1) n []⟩

/-- Decimal rendering of an integer, as JavaScript renders an integral number. -/
def intToString (i : Int) : String :=
  if i < 0 then "-" ++ natToString i.natAbs else natToString i.natAbs

/-- Constant `UNSPLASH_API_URL` from src/constants.ts. -/
def UNSPLASH_API_URL : String := "https://api.unsplash.com"

/-- Constant `CHARACTER_LIMIT` from src/constants.ts. -/
def CHARACTER_LIMIT : Nat := 15000

/-- Suffix appended by `truncateIfNeeded`, reporting the original total length. -/
def truncationSuffix (total : Nat) : String :=
  "\n\n...[Content truncated due to length. Total: " ++ natToString total ++ " characters]"

/-- Embedding of `truncateIfNeeded` (formatters.ts, lines 104-111).  JavaScript
`content.substring(0, limit - 100)` clamps a negative end index to 0, which Nat
subtraction mirrors exactly. -/
def truncateIfNeeded (content : String) (limit : Nat) : String :=
  if content.length ≤ limit then content
  else ⟨content.data.take (limit - 100)⟩ ++ truncationSuffix content.length

/-!
Model of JSON values and of the platform's `JSON.parse`, which the client uses
both to read a success body (`response.json()`) and to probe a failure body for
an error message.  Number tokens are kept as their source text; JSON forbids
leading zeros, so integral tokens are already canonical apart from `-0`.
-/

/-- Values produced by `JSON.parse`. -/
inductive JsonValue where
  | null
  | bool (b : Bool)
  | num (tok : String)
  | str (s : String)
  | arr (elems : List JsonValue)
  | obj (fields : List (String × JsonValue))
deriving Repr

/-- Whitespace accepted between JSON tokens. -/
def jsonWs (c : Char) : Bool := c == ' ' || c == '\t' || c == '\n' || c == '\r'

/-- Drops leading JSON whitespace. -/
def skipWs : List Char → List Char
  | [] => []
  | c :: cs => if jsonWs c then skipWs cs else c :: cs

/-- Value of one hexadecimal digit. -/
def hexVal (c : Char) : Option Nat :=
  if '0' ≤ c ∧ c ≤ '9' then some (c.toNat - 48)
  else if 'a' ≤ c ∧ c ≤ 'f' then some (c.toNat - 87)
  else if 'A' ≤ c ∧ c ≤ 'F' then some (c.toNat - 70)
  else none

/-- Reads the rest of a JSON string after the opening quote, returning its
characters and the remaining input.  Control characters must be escaped. -/
def parseStringRest : List Char → Option (List Char × List Char)
  | [] => none
  | '"' :: rest => some ([], rest)
  | '\\' :: rest =>
    match rest with
    | '"' :: t => (parseStringRest t).map (fun p => ('"' :: p.1, p.2))
    | '\\' :: t => (parseStringRest t).map (fun p => ('\\' :: p.1, p.2))
    | '/' :: t => (parseStringRest t).map (fun p => ('/' :: p.1, p.2))
    | 'b' :: t => (parseStringRest t).map (fun p => ('\x08' :: p.1, p.2))
    | 'f' :: t => (parseStringRest t).map (fun p => ('\x0c' :: p.1, p.2))
    | 'n' :: t => (parseStringRest t).map (fun p => ('\n' :: p.1, p.2))
    | 'r' :: t => (parseStringRest t).map (fun p => ('\x0d' :: p.1, p.2))
    | 't' :: t => (parseStringRest t).map (fun p => ('\t' :: p.1, p.2))
    | 'u' :: h1 :: h2 :: h3 :: h4 :: t =>
      match hexVal h1, hexVal h2, hexVal h3, hexVal h4 with
      | some a, some b, some c, some d =>
        (parseStringRest t).map (fun p => (Char.ofNat (((a * 16 + b) * 16 + c) * 16 + d) :: p.1, p.2))
      | _, _, _, _ => none
    | _ => none
  | c :: rest =>
    if c.toNat < 32 then none
    else (parseStringRest rest).map (fun p => (c :: p.1, p.2))

/-- Splits off a maximal run of decimal digits. -/
def spanDigits : List Char → List Char × List Char
  | [] => ([], [])
  | c :: cs => if c.isDigit then (fun p => (c :: p.1, p.2)) (spanDigits cs) else ([], c :: cs)

/-- Integer part of a JSON number: a single `0`, or a nonzero digit followed by digits. -/
def parseIntPart : List Char → Option (List Char × List Char)
  | [] => none
  | '0' :: rest => some (['0'], rest)
  | c :: rest =>
    if c.isDigit then (fun p => some (c :: p.1, p.2)) (spanDigits rest) else none

/-- Optional fraction part of a JSON number. -/
def parseFracPart : List Char → Option (List Char × List Char)
  | '.' :: rest =>
    match rest with
    | c :: rest2 =>
      if c.isDigit then (fun p => some ('.' :: c :: p.1, p.2)) (spanDigits rest2) else none
    | [] => none
  | input => some ([], input)

/-- Optional exponent part of a JSON number. -/
def parseExpPart : List Char → Option (List Char × List Char)
  | c :: rest =>
    if c == 'e' || c == 'E' then
      match rest with
      | s :: rest2 =>
        if s == '+' || s == '-' then
          match rest2 with
          | d :: rest3 =>
            if d.isDigit then (fun p => some (c :: s :: d :: p.1, p.2)) (spanDigits rest3)
            else none
          | [] => none
        else if s.isDigit then (fun p => some (c :: s :: p.1, p.2)) (spanDigits rest2)
        else none
      | [] => none
    else some ([], c :: rest)
  | [] => some ([], [])

/-- Reads a JSON number token, keeping its source text. -/
def parseJsonNumber (input : List Char) : Option (String × List Char) :=
  let negRest : Bool × List Char :=
    match input with
    | '-' :: r => (true, r)
    | r => (false, r)
  match parseIntPart negRest.2 with
  | none => none
  | some (ip, r1) =>
    match parseFracPart r1 with
    | none => none
    | some (fp, r2) =>
      match parseExpPart r2 with
      | none => none
      | some (ep, r3) =>
        some (⟨(if negRest.1 then ['-'] else []) ++ ip ++ fp ++ ep⟩, r3)

/-- Reads the comma-separated items of a JSON array, using `pv` for each element
and fuel to bound the loop. -/
def parseArrayItems (pv : List Char → Option (JsonValue × List Char)) :
    Nat → List Char → Option (List JsonValue × List Char)
  | 0, _ => none
  | fuel + 1, input =>
    match pv input with
    | none => none
    | some (v, rest) =>
      match skipWs rest with
      | ',' :: rest2 => (parseArrayItems pv fuel rest2).map (fun p => (v :: p.1, p.2))
      | ']' :: rest2 => some ([v], rest2)
      | _ => none

/-- Reads the comma-separated members of a JSON object, using `pv` for each
value and fuel to bound the loop. -/
def parseObjItems (pv : List Char → Option (JsonValue × List Char)) :
    Nat → List Char → Option (List (String × JsonValue) × List Char)
  | 0, _ => none
  | fuel + 1, input =>
    match skipWs input with
    | '"' :: rest =>
      match parseStringRest rest with
      | none => none
      | some (key, rest2) =>
        match skipWs rest2 with
        | ':' :: rest3 =>
          match pv rest3 with
          | none => none
          | some (v, rest4) =>
            match skipWs rest4 with
            | ',' :: rest5 => (parseObjItems pv fuel rest5).map (fun p => ((⟨key⟩, v) :: p.1, p.2))
            | '\x7d' :: rest5 => some ([(⟨key⟩, v)], rest5)
            | _ => none
        | _ => none
    | _ => none

/-- Reads one JSON value, by fuel recursion on the nesting depth. -/
def parseVal : Nat → List Char → Option (JsonValue × List Char)
  | 0, _ => none
  | fuel + 1, input =>
    match skipWs input with
    | 'n' :: 'u' :: 'l' :: 'l' :: rest => some (.null, rest)
    | 't' :: 'r' :: 'u' :: 'e' :: rest => some (.bool true, rest)
    | 'f' :: 'a' :: 'l' :: 's' :: 'e' :: rest => some (.bool false, rest)
    | '"' :: rest => (parseStringRest rest).map (fun p => (.str ⟨p.1⟩, p.2))
    | '[' :: rest =>
      (match skipWs rest with
       | ']' :: rest2 => some (.arr [], rest2)
       | other => (parseArrayItems (parseVal fuel) fuel other).map (fun p => (.arr p.1, p.2)))
    | '\x7b' :: rest =>
      (match skipWs rest with
       | '\x7d' :: rest2 => some (.obj [], rest2)
       | other => (parseObjItems (parseVal fuel) fuel other).map (fun p => (.obj p.1, p.2)))
    | other => (parseJsonNumber other).map (fun p => (.num p.1, p.2))

/-- Model of `JSON.parse`: parse one value with generous fuel and insist that
only whitespace follows; `none` models a thrown `SyntaxError`. -/
def jsonParse (s : String) : Option JsonValue :=
  match parseVal (s.length + 1) s.data with
  | some (v, rest) => if (skipWs rest).isEmpty then some v else none
  | none => none

/-!
JavaScript value semantics needed by the client's error-message probe
`errorJson.errors?.[0] || errorJson.error || errorMessage`.
-/

/-- Tests whether a number token denotes zero: every digit of its mantissa is 0. -/
def numIsZero (tok : String) : Bool :=
  ((tok.data.takeWhile (fun c => !(c == 'e' || c == 'E'))).filter (fun c => c.isDigit)).all
    (fun c => c == '0')

/-- JavaScript truthiness of a parsed JSON value. -/
def truthy : JsonValue → Bool
  | .null => false
  | .bool b => b
  | .num tok => !numIsZero tok
  | .str s => !s.isEmpty
  | .arr _ => true
  | .obj _ => true

/-- Looks up a field of a parsed object.  `JSON.parse` keeps the last of two
identically named members, so the last binding wins. -/
def lookupLast (fields : List (String × JsonValue)) (key : String) : Option JsonValue :=
  match fields with
  | [] => none
  | (k, v) :: rest =>
    match lookupLast rest key with
    | some r => some r
    | none => if k = key then some v else none

/-- JavaScript property access `base.key` for a non-null base: only objects have
own properties; every other base yields undefined (modelled as `none`). -/
def propAccess : JsonValue → String → Option JsonValue
  | .obj fields, key => lookupLast fields key
  | _, _ => none

/-- JavaScript index access `base[0]`: first array element, first character of a
string, or the field named `0` of an object; undefined otherwise. -/
def index0 : JsonValue → Option JsonValue
  | .arr (x :: _) => some x
  | .arr [] => none
  | .str s => if s.isEmpty then none else some (.str ⟨[s.data.headD ' ']⟩)
  | .obj fields => lookupLast fields "0"
  | _ => none

/-- Truthiness of a possibly-undefined value. -/
def jsTruthyOpt : Option JsonValue → Bool
  | none => false
  | some v => truthy v

/-- JavaScript `a || b` over possibly-undefined values. -/
def jsOrVal (a b : Option JsonValue) : Option JsonValue :=
  if jsTruthyOpt a then a else b

/-- Canonical rendering of a number token under `String(...)`.  JSON forbids
leading zeros, so an integral token is already canonical except `-0`; the
re-canonicalisation of fraction/exponent forms is not modelled and those tokens
are kept verbatim (no code path of the claims reaches one). -/
def canonNum (tok : String) : String := if tok = "-0" then "0" else tok

/-- Stringification of an array element inside `Array.prototype.join`: null is
rendered empty, every other element by `String(...)` (the first argument). -/
def jsArrElemStr (f : JsonValue → String) : JsonValue → String
  | .null => ""
  | v => f v

/-- JavaScript `String(v)` for a parsed JSON value, by fuel recursion on the
array nesting depth. -/
def jsToStringAux : Nat → JsonValue → String
  | _, .null => "null"
  | _, .bool true => "true"
  | _, .bool false => "false"
  | _, .num tok => canonNum tok
  | _, .str s => s
  | _, .obj _ => "[object Object]"
  | 0, .arr _ => ""
  | fuel + 1, .arr xs =>
    String.intercalate "," (xs.map (fun v => jsArrElemStr (jsToStringAux fuel) v))

/-!
Model of the client (src/services/unsplash-client.ts).  The outside world is
one outbound `fetch`: it either throws a value, or yields a response with a
numeric status and a body text.  `response.json()` on a success body is
`JSON.parse` of that text; its `SyntaxError` message is platform text and is a
parameter.
-/

/-- Scalar query-parameter values accepted by `makeRequest`. -/
inductive Scalar where
  | str (s : String)
  | num (n : Int)
  | bool (b : Bool)

/-- JavaScript `String(value)` for a scalar parameter value. -/
def stringOfScalar : Scalar → String
  | .str s => s
  | .num n => intToString n
  | .bool true => "true"
  | .bool false => "false"

/-- UTF-8 bytes of one character. -/
def utf8Bytes (c : Char) : List Nat :=
  let n := c.toNat
  if n < 128 then [n]
  else if n < 2048 then [192 + n / 64, 128 + n % 64]
  else if n < 65536 then [224 + n / 4096, 128 + (n / 64) % 64, 128 + n % 64]
  else [240 + n / 262144, 128 + (n / 4096) % 64, 128 + (n / 64) % 64, 128 + n % 64]

/-- Uppercase hexadecimal digit. -/
def hexDigitChar (d : Nat) : Char := if d < 10 then digitChar d else Char.ofNat (55 + d)

/-- Percent-encoding of one byte under the `application/x-www-form-urlencoded`
serialiser used by `URLSearchParams.toString`: alphanumerics and `*-._` stand
verbatim, a space becomes `+`, every other byte `%XY`. -/
def formEncodeByte (b : Nat) : String :=
  if b = 42 ∨ b = 45 ∨ b = 46 ∨ b = 95
      ∨ (48 ≤ b ∧ b ≤ 57) ∨ (65 ≤ b ∧ b ≤ 90) ∨ (97 ≤ b ∧ b ≤ 122) then
    ⟨[Char.ofNat b]⟩
  else if b = 32 then "+"
  else ⟨['%', hexDigitChar (b / 16), hexDigitChar (b % 16)]⟩

/-- Form-encoding of a string, used for every key and value of the query. -/
def formEncode (s : String) : String :=
  String.join ((s.data.flatMap utf8Bytes).map formEncodeByte)

/-- Serialisation of one appended pair by `URLSearchParams.toString`. -/
def pairString (k : String) (v : Scalar) : String :=
  formEncode k ++ "=" ++ formEncode (stringOfScalar v)

/-- Pairs appended by the loop of `makeRequest` (lines 35-39): entries in
insertion order, each `undefined` value skipped, each present value
stringified. -/
def queryPairs (params : List (String × Option Scalar)) : List String :=
  params.filterMap (fun kv => kv.2.map (fun v => pairString kv.1 v))

/-- Query string built by `makeRequest`: the serialisation
`URLSearchParams.toString` of the appended pairs. -/
def buildQuery (params : List (String × Option Scalar)) : String :=
  String.intercalate "&" (queryPairs params)

/-- Full request URL (lines 42-44): base, endpoint, and the query behind `?`
only when the query is non-empty. -/
def requestUrl (endpoint : String) (params : List (String × Option Scalar)) : String :=
  UNSPLASH_API_URL ++ endpoint ++ (if buildQuery params = "" then "" else "?" ++ buildQuery params)

/-- Value of `response.ok`: a status in the inclusive range 200-299. -/
def responseOk (status : Nat) : Bool := 200 ≤ status && status ≤ 299

/-- Value thrown by the transport: an `Error` instance carrying a message, or
any other value. -/
inductive JsThrown where
  | error (message : String)
  | nonError
deriving DecidableEq

/-- Outcome of one `fetch` call. -/
inductive FetchOutcome where
  | throws (t : JsThrown)
  | response (status : Nat) (bodyText : String)

/-- Diagnostic payload of the error class: the raw body text of a failed
response, or the underlying thrown value. -/
inductive ErrPayload where
  | bodyText (s : String)
  | cause (t : JsThrown)
deriving DecidableEq

/-- Embedding of the `UnsplashAPIError` class: a message, an optional numeric
status code, and an optional diagnostic payload. -/
structure UnsplashAPIError where
  message : String
  statusCode : Option Nat
  response : Option ErrPayload
deriving DecidableEq

/-- Generic fallback message `Unsplash API error (status)`. -/
def genericApiMessage (status : Nat) : String :=
  "Unsplash API error (" ++ natToString status ++ ")"

/-- Result of the probe `errorJson.errors?.[0] || errorJson.error || errorMessage`:
a truthy value was picked, the chain fell through to the generic message, or the
property access threw (a null base). -/
inductive MessagePick where
  | picked (v : JsonValue)
  | generic
  | thrown

/-- Evaluates the probe on the parsed failure body. -/
def pickErrorMessage (errorJson : JsonValue) : MessagePick :=
  match errorJson with
  | .null => .thrown
  | j =>
    let errorsField := propAccess j "errors"
    let first : Option JsonValue :=
      match errorsField with
      | none => none
      | some .null => none
      | some v => index0 v
    let chain := jsOrVal first (propAccess j "error")
    match chain with
    | some v => if truthy v then .picked v else .generic
    | none => .generic

/-- Error message chosen for a failure body (lines 55-63): parse the body; on a
parsed body take the first truthy of `errors[0]` and `error`, else the generic
message; when parsing (or the property access) throws, the raw body text if
non-empty, else the generic message.  A value parsed out of `errorText` nests
strictly below `errorText.length + 1` levels, so that fuel makes the
stringification total on everything reachable here. -/
def computeErrorMessage (status : Nat) (errorText : String) : String :=
  match jsonParse errorText with
  | none => if errorText.isEmpty then genericApiMessage status else errorText
  | some j =>
    match pickErrorMessage j with
    | .thrown => if errorText.isEmpty then genericApiMessage status else errorText
    | .generic => genericApiMessage status
    | .picked v => jsToStringAux (errorText.length + 1) v

/-- Wrapping applied by the outer catch (lines 69-83) to a thrown value that is
not already an `UnsplashAPIError`. -/
def wrapThrown : JsThrown → UnsplashAPIError
  | .error m => ⟨"Network error: " ++ m, none, some (.cause (.error m))⟩
  | .nonError => ⟨"Unknown error occurred", none, none⟩

/-- Embedding of `makeRequest` (lines 28-84) as a function of the fetch outcome.
On a response: a non-ok status throws an `UnsplashAPIError` built from the body
(re-thrown unchanged by the outer catch); an ok status parses the body, a parse
failure being a thrown `SyntaxError` (message `syntaxErrMsg`, platform text)
that the outer catch wraps. -/
def makeRequest (world : FetchOutcome) (syntaxErrMsg : String) :
    Except UnsplashAPIError JsonValue :=
  match world with
  | .throws t => .error (wrapThrown t)
  | .response status bodyText =>
    if responseOk status then
      match jsonParse bodyText with
      | some v => .ok v
      | none => .error (wrapThrown (.error syntaxErrMsg))
    else
      .error ⟨computeErrorMessage status bodyText, some status, some (.bodyText bodyText)⟩

/-- Embedding of `trackDownload` (lines 87-98): one fetch whose response is
ignored; a thrown value is swallowed after logging.  The returned list is the
log; `Except` is the channel a throw would use. -/
def trackDownload (world : FetchOutcome) : Except UnsplashAPIError (List String) :=
  match world with
  | .throws _ => .ok ["Failed to track download:"]
  | .response _ _ => .ok []

/-!
Data model of the records the formatters consume (src/types.ts).  Optional
fields are `Option`; fields the formatters never read but which carry
non-integral numbers (`exif`, `location.position`) are left out of the
embedding.  Locale-dependent platform calls (`toLocaleDateString` on a parsed
date, `toLocaleString` on a number) are parameters of the formatters.
-/

/-- Embedding of the `profile_image` record of `UnsplashUser`. -/
structure ProfileImage where
  (small medium large : String)

/-- Embedding of the `links` record of `UnsplashUser`. -/
structure UserLinks where
  (self html photos likes portfolio : String)

/-- Embedding of `UnsplashUser` (types.ts). -/
structure UnsplashUser where
  id : String
  username : String
  name : String
  first_name : String
  last_name : String
  bio : Option String
  location : Option String
  total_likes : Int
  total_photos : Int
  total_collections : Int
  instagram_username : Option String
  twitter_username : Option String
  portfolio_url : Option String
  profile_image : ProfileImage
  links : UserLinks

/-- Embedding of `UnsplashPhotoUrls` (types.ts). -/
structure UnsplashPhotoUrls where
  (raw full regular small thumb : String)

/-- Embedding of `UnsplashPhotoLinks` (types.ts). -/
structure UnsplashPhotoLinks where
  (self html download download_location : String)

/-- Element of the optional `tags` array of a photo. -/
structure PhotoTag where
  title : String

/-- Embedding of the optional `location` record of a photo. -/
structure PhotoLocation where
  name : Option String
  city : Option String
  country : Option String

/-- Embedding of `UnsplashPhoto` (types.ts). -/
structure UnsplashPhoto where
  id : String
  created_at : String
  updated_at : String
  width : Int
  height : Int
  color : String
  blur_hash : String
  description : Option String
  alt_description : Option String
  likes : Int
  liked_by_user : Bool
  urls : UnsplashPhotoUrls
  links : UnsplashPhotoLinks
  user : UnsplashUser
  location : Option PhotoLocation
  tags : Option (List PhotoTag)

/-- Entry of a statistics history. -/
structure HistValue where
  date : String
  value : Int

/-- Historical block of a statistics record. -/
structure Historical where
  change : Int
  values : List HistValue

/-- One statistics block (`downloads`, `views` or `likes`). -/
structure StatBlock where
  total : Int
  historical : Historical

/-- Embedding of `PhotoStatistics` (types.ts). -/
structure PhotoStatistics where
  id : String
  downloads : StatBlock
  views : StatBlock
  likes : StatBlock

/-- JavaScript `a || b` for an optional string: the string when present and
non-empty (truthy), else the fallback. -/
def jsOrStr (a : Option String) (b : String) : String :=
  match a with
  | some s => if s.isEmpty then b else s
  | none => b

/-- Conditional line `if (field) parts.push(label + field)`: present and truthy,
one line; otherwise nothing. -/
def optLine (label : String) (field : Option String) : List String :=
  match field with
  | some s => if s.isEmpty then [] else [label ++ s]
  | none => []

/-- Conditional location line of a photo: `if (photo.location?.name)`. -/
def locationLine (location : Option PhotoLocation) : List String :=
  match location with
  | some loc => optLine "**Location**: " loc.name
  | none => []

/-- Conditional tags line of a photo: `if (photo.tags && photo.tags.length > 0)`. -/
def tagsLine (tags : Option (List PhotoTag)) : List String :=
  match tags with
  | some ts =>
    if ts.length > 0 then
      ["**Tags**: " ++ String.intercalate ", " (ts.map (fun t => t.title))]
    else []
  | none => []

/-- Conditional Instagram line of a user: `if (user.instagram_username)`. -/
def instagramLine (ig : Option String) : List String :=
  match ig with
  | some s => if s.isEmpty then [] else ["**Instagram**: @" ++ s]
  | none => []

/-- Lines pushed by `formatPhotoMarkdown` (formatters.ts, lines 11-37), in push
order. -/
def photoParts (localeDate : String → String) (photo : UnsplashPhoto) : List String :=
  ["### " ++ jsOrStr photo.alt_description (jsOrStr photo.description "Photo"),
   "**ID**: " ++ photo.id,
   "**Photographer**: " ++ photo.user.name ++ " (@" ++ photo.user.username ++ ")",
   "**Dimensions**: " ++ intToString photo.width ++ " × " ++ intToString photo.height ++ "px",
   "**Color**: " ++ photo.color,
   "**Likes**: " ++ intToString photo.likes]
  ++ optLine "**Description**: " photo.description
  ++ locationLine photo.location
  ++ ["**Created**: " ++ localeDate photo.created_at,
      "**Unsplash URL**: " ++ photo.links.html,
      "**Download URL**: " ++ photo.urls.regular]
  ++ tagsLine photo.tags

/-- Embedding of `formatPhotoMarkdown`. -/
def formatPhotoMarkdown (localeDate : String → String) (photo : UnsplashPhoto) : String :=
  String.intercalate "\n" (photoParts localeDate photo)

/-- Lines pushed by `formatUserMarkdown` (formatters.ts, lines 58-85), in push
order. -/
def userParts (user : UnsplashUser) : List String :=
  ["### " ++ user.name ++ " (@" ++ user.username ++ ")",
   "**ID**: " ++ user.id,
   "**Total Photos**: " ++ intToString user.total_photos,
   "**Total Likes**: " ++ intToString user.total_likes,
   "**Total Collections**: " ++ intToString user.total_collections]
  ++ optLine "**Bio**: " user.bio
  ++ optLine "**Location**: " user.location
  ++ instagramLine user.instagram_username
  ++ optLine "**Portfolio**: " user.portfolio_url
  ++ ["**Unsplash Profile**: " ++ user.links.html]

/-- Embedding of `formatUserMarkdown`. -/
def formatUserMarkdown (user : UnsplashUser) : String :=
  String.intercalate "\n" (userParts user)

/-- Rendering of one historical change, embedding the inline expression
`(change > 0 ? "+" : "") + change` of `formatStatisticsMarkdown`. -/
def signedChange (change : Int) : String :=
  (if change > 0 then "+" else "") ++ intToString change

/-- Lines pushed by `formatStatisticsMarkdown` (formatters.ts, lines 88-101),
in push order; `locale` stands for `Number.prototype.toLocaleString`. -/
def statisticsParts (locale : Int → String) (stats : PhotoStatistics) : List String :=
  ["### Photo Statistics (ID: " ++ stats.id ++ ")",
   "**Total Downloads**: " ++ locale stats.downloads.total,
   "**Total Views**: " ++ locale stats.views.total,
   "**Total Likes**: " ++ locale stats.likes.total,
   "\n**Recent Trends**:",
   "- Downloads change: " ++ signedChange stats.downloads.historical.change,
   "- Views change: " ++ signedChange stats.views.historical.change,
   "- Likes change: " ++ signedChange stats.likes.historical.change]

/-- Embedding of `formatStatisticsMarkdown`. -/
def formatStatisticsMarkdown (locale : Int → String) (stats : PhotoStatistics) : String :=
  String.intercalate "\n" (statisticsParts locale stats)

/-!
Shared lemmas about the decimal rendering and the length guard.
-/

/-- Digit emission bound: with fuel above `n`, a number below `10 ^ k` emits at
most `k` digits onto the accumulator. -/
theorem natDigitsAux_length_le :
    ∀ fuel n acc k, n < 10 ^ k → 1 ≤ k → n < fuel →
      (natDigitsAux fuel n acc).length ≤ acc.length + k := by
  intro fuel
  induction fuel with
  | zero => intro n acc k _ _ h; omega
  | succ f ih =>
    intro n acc k hk hk1 hf
    rw [natDigitsAux]
    by_cases hn : n < 10
    · simp only [hn, if_pos]
      simp only [List.length_cons]
      omega
    · simp only [hn, if_neg, not_false_iff]
      have hk2 : 2 ≤ k := by
        by_contra hc
        have : k = 1 := by omega
        subst this
        simp at hk
        omega
      have hdiv : n / 10 < 10 ^ (k - 1) := by
        have : (10 : Nat) ^ k = 10 ^ (k - 1) * 10 := by
          have : k - 1 + 1 = k := by omega
          calc (10 : Nat) ^ k = 10 ^ (k - 1 + 1) := by rw [‹k - 1 + 1 = k›]
          _ = 10 ^ (k - 1) * 10 := by rw [pow_succ]
        exact (Nat.div_lt_iff_lt_mul (by omega)).2 (by omega)
      have hfd : n / 10 < f := by
        have h1 : n / 10 < n := Nat.div_lt_self (by omega) (by omega)
        omega
      have := ih (n / 10) (digitChar (n % 10) :: acc) (k - 1) hdiv (by omega) hfd
      simp only [List.length_cons] at this
      omega

/-- Digit-count bound for the decimal rendering. -/
theorem natToString_length_le (n k : Nat) (hk1 : 1 ≤ k) (h : n < 10 ^ k) :
    (natToString n).length ≤ k := by
  have := natDigitsAux_length_le (n + 1) n [] k h hk1 (by omega)
  simpa [natToString] using this

/-- Length of the truncation suffix: 58 fixed characters plus the digits of the
reported total. -/
theorem truncationSuffix_length (total : Nat) :
    (truncationSuffix total).length = 58 + (natToString total).length := by
  have h1 : ("\n\n...[Content truncated due to length. Total: " : String).length = 46 := rfl
  have h2 : (" characters]" : String).length = 12 := rfl
  simp only [truncationSuffix, String.length_append, h1, h2]
  omega

/-- Core bound of the length guard: from a ceiling of at least 100 and a text
shorter than `10 ^ 42` characters (every JavaScript string is, lengths being
below `2 ^ 53`), the output fits the ceiling. -/
theorem truncateIfNeeded_length_le (content : String) (limit : Nat)
    (h100 : 100 ≤ limit) (hjs : content.length < 10 ^ 42) :
    (truncateIfNeeded content limit).length ≤ limit := by
  rw [truncateIfNeeded]
  by_cases h : content.length ≤ limit
  · simp [h]
  · simp only [h, if_neg, not_false_iff]
    rw [String.length_append, String.length_mk, List.length_take,
      truncationSuffix_length]
    have hdig : (natToString content.length).length ≤ 42 :=
      natToString_length_le _ 42 (by omega) hjs
    omega

/-!
Claim C1, the length guard.
-/

/-- C1 (counterexample): the claim quantifies over every ceiling, but at
ceiling 0 the one-character text `a` exceeds the ceiling and the guard returns
the bare 59-character suffix, violating the claimed bound
`result.length ≤ ceiling`. -/
theorem truncateIfNeeded_ceiling_zero_counterexample :
    ¬ ((truncateIfNeeded (String.mk ['a']) 0).length ≤ 0) := by decide

/-- C1 (amended): `truncateIfNeeded text ceiling` returns `text` unchanged when
`text.length ≤ ceiling`; otherwise it is the first `ceiling - 100` characters
(the subtraction clamped at zero, as JavaScript `substring` clamps) followed by
the fixed suffix, inside which the original total character count stands
verbatim; and the output length is at most the ceiling provided `100 ≤ ceiling`
and the text is shorter than `10 ^ 42` characters (every JavaScript string is). -/
theorem truncateIfNeeded_spec_amended (text : String) (ceiling : Nat) :
    (text.length ≤ ceiling → truncateIfNeeded text ceiling = text)
    ∧ (ceiling < text.length →
        (truncateIfNeeded text ceiling).data
          = text.data.take (ceiling - 100) ++ (truncationSuffix text.length).data
        ∧ (truncationSuffix text.length).data
            = ("\n\n...[Content truncated due to length. Total: " : String).data
              ++ (natToString text.length).data ++ (" characters]" : String).data)
    ∧ (100 ≤ ceiling → text.length < 10 ^ 42 →
        (truncateIfNeeded text ceiling).length ≤ ceiling) := by
  refine ⟨fun h => by simp [truncateIfNeeded, h], fun h => ?_,
    fun h100 hjs => truncateIfNeeded_length_le text ceiling h100 hjs⟩
  have h2 : ¬ text.length ≤ ceiling := by omega
  constructor
  · simp [truncateIfNeeded, h2]
  · simp [truncationSuffix, String.data_append]

set_option maxRecDepth 8000 in
/-- Witness for C1 (amended), at a short text below the ceiling and at a
200-character text over a ceiling of 150. -/
theorem truncateIfNeeded_spec_amended_witness :
    truncateIfNeeded "hi" 5 = "hi"
    ∧ (truncateIfNeeded (String.mk (List.replicate 200 'a')) 150).data
        = (String.mk (List.replicate 200 'a')).data.take (150 - 100)
          ++ (truncationSuffix (String.mk (List.replicate 200 'a')).length).data
    ∧ (truncateIfNeeded (String.mk (List.replicate 200 'a')) 150).length ≤ 150 :=
  ⟨(truncateIfNeeded_spec_amended "hi" 5).1 (by decide),
   ((truncateIfNeeded_spec_amended (String.mk (List.replicate 200 'a')) 150).2.1
     (by decide)).1,
   (truncateIfNeeded_spec_amended (String.mk (List.replicate 200 'a')) 150).2.2
     (by decide) (by decide)⟩

/-!
Claim C10, idempotence of the length guard.
-/

/-- C10: the length guard is idempotent at any limit of at least 100, for every
text shorter than `10 ^ 42` characters (every JavaScript string is, lengths
being below `2 ^ 53`): one application already fits the limit, so a second one
returns its input unchanged. -/
theorem truncateIfNeeded_idempotent (text : String) (limit : Nat)
    (h100 : 100 ≤ limit) (hjs : text.length < 10 ^ 42) :
    truncateIfNeeded (truncateIfNeeded text limit) limit = truncateIfNeeded text limit := by
  have h := truncateIfNeeded_length_le text limit h100 hjs
  rw [truncateIfNeeded.eq_def, if_pos h]

set_option maxRecDepth 8000 in
/-- Witness for C10 at a 200-character text and limit 120. -/
theorem truncateIfNeeded_idempotent_witness :
    truncateIfNeeded (truncateIfNeeded (String.mk (List.replicate 200 'a')) 120) 120
      = truncateIfNeeded (String.mk (List.replicate 200 'a')) 120 :=
  truncateIfNeeded_idempotent (String.mk (List.replicate 200 'a')) 120
    (by decide) (by decide)

/-!
Claim C3, sign rendering of historical changes.
-/

/-- Concrete statistics record whose downloads change is exactly zero. -/
def statsZeroChange : PhotoStatistics :=
  ⟨"z1", ⟨7, ⟨0, []⟩⟩, ⟨8, ⟨-100, []⟩⟩, ⟨9, ⟨250, []⟩⟩⟩

/-- C3 (counterexample): the claim asks for a forced `+` on every non-negative
change including zero, but the code tests `change > 0`, so a zero change is
rendered `0`, not `+0`: the zero-change record renders the line
`- Downloads change: 0`. -/
theorem formatStatistics_zero_change_counterexample :
    signedChange 0 = "0" ∧ signedChange 0 ≠ "+0"
    ∧ "- Downloads change: 0" ∈ statisticsParts intToString statsZeroChange := by
  refine ⟨by decide, by decide, ?_⟩
  simp [statisticsParts, statsZeroChange]
  decide

/-- C3 (amended): a historical change is rendered with a forced leading `+`
exactly when it is strictly positive and plainly otherwise, so zero renders
`0`, 250 renders `+250` and -100 renders `-100`; the three trend lines of
`formatStatisticsMarkdown` carry these renderings for any locale function and
any statistics record. -/
theorem formatStatistics_signed_rendering (locale : Int → String)
    (stats : PhotoStatistics) :
    (∀ c : Int, 0 < c → signedChange c = "+" ++ intToString c)
    ∧ (∀ c : Int, c ≤ 0 → signedChange c = intToString c)
    ∧ signedChange 250 = "+250" ∧ signedChange (-100) = "-100" ∧ signedChange 0 = "0"
    ∧ "- Downloads change: " ++ signedChange stats.downloads.historical.change
        ∈ statisticsParts locale stats
    ∧ "- Views change: " ++ signedChange stats.views.historical.change
        ∈ statisticsParts locale stats
    ∧ "- Likes change: " ++ signedChange stats.likes.historical.change
        ∈ statisticsParts locale stats := by
  refine ⟨fun c hc => ?_, fun c hc => ?_, by decide, by decide, by decide, ?_, ?_, ?_⟩
  · simp [signedChange, hc]
  · have : ¬ (0 : Int) < c := by omega
    simp [signedChange, this]
  · simp [statisticsParts]
  · simp [statisticsParts]
  · simp [statisticsParts]

/-- Witness for C3 (amended), instantiating the positive and non-positive cases
at 250 and -100 on the concrete zero-change record. -/
theorem formatStatistics_signed_rendering_witness :
    signedChange 250 = "+" ++ intToString 250
    ∧ signedChange (-100) = intToString (-100)
    ∧ "- Downloads change: " ++ signedChange statsZeroChange.downloads.historical.change
        ∈ statisticsParts intToString statsZeroChange :=
  ⟨(formatStatistics_signed_rendering intToString statsZeroChange).1 250 (by decide),
   (formatStatistics_signed_rendering intToString statsZeroChange).2.1 (-100) (by decide),
   (formatStatistics_signed_rendering intToString statsZeroChange).2.2.2.2.2.1⟩

/-!
Shared lemmas about the query serialisation.
-/

/-- Accumulator monotonicity of the intercalation loop. -/
theorem intercalate_go_length (sep acc : String) (l : List String) :
    acc.length ≤ (String.intercalate.go acc sep l).length := by
  induction l generalizing acc with
  | nil => simp [String.intercalate.go]
  | cons a as ih =>
    rw [String.intercalate.go]
    calc acc.length ≤ (acc ++ sep ++ a).length := by
          rw [String.length_append, String.length_append]; omega
    _ ≤ _ := ih (acc ++ sep ++ a)

/-- Every serialised pair holds at least its `=` sign. -/
theorem queryPairs_length_pos (params : List (String × Option Scalar)) :
    ∀ p ∈ queryPairs params, 1 ≤ p.length := by
  intro p hp
  rw [queryPairs, List.mem_filterMap] at hp
  obtain ⟨kv, _, hmap⟩ := hp
  cases h2 : kv.2 with
  | none => rw [h2] at hmap; simp at hmap
  | some v =>
    rw [h2] at hmap
    simp only [Option.map_some'] at hmap
    obtain rfl : pairString kv.1 v = p := by simpa using hmap
    rw [pairString, String.length_append, String.length_append]
    have h1 : ("=" : String).length = 1 := rfl
    omega

/-- Emptiness of the query string characterises an all-skipped parameter list. -/
theorem buildQuery_eq_empty_iff (params : List (String × Option Scalar)) :
    buildQuery params = "" ↔ queryPairs params = [] := by
  constructor
  · intro h
    cases hq : queryPairs params with
    | nil => rfl
    | cons p rest =>
      exfalso
      have h1 : 1 ≤ p.length :=
        queryPairs_length_pos params p (by rw [hq]; exact List.mem_cons_self p rest)
      have h2 : buildQuery params = String.intercalate.go p "&" rest := by
        rw [buildQuery, hq, String.intercalate]
      have h3 := intercalate_go_length "&" p rest
      rw [← h2, h] at h3
      have h4 : ("" : String).length = 0 := rfl
      omega
  · intro h
    rw [buildQuery, h]
    rfl

/-!
Claim C4, query-string construction.
-/

/-- C4: absent (undefined) entries are excluded wherever they stand; a list of
present entries serialises in insertion order, each as
`encode(key)=encode(String(value))` under the form-urlencoded serialiser, with
numbers and booleans stringified canonically; and the URL is the base plus the
endpoint, the query following a `?` exactly when some entry is present. -/
theorem makeRequest_query_spec (endpoint : String)
    (params : List (String × Option Scalar)) :
    (∀ xs ys k, buildQuery (xs ++ (k, (none : Option Scalar)) :: ys) = buildQuery (xs ++ ys))
    ∧ (∀ entries : List (String × Scalar),
        buildQuery (entries.map (fun e => (e.1, some e.2)))
          = String.intercalate "&" (entries.map (fun e =>
              formEncode e.1 ++ "=" ++ formEncode (stringOfScalar e.2))))
    ∧ (∀ n : Int, stringOfScalar (.num n) = intToString n)
    ∧ stringOfScalar (.bool true) = "true" ∧ stringOfScalar (.bool false) = "false"
    ∧ (queryPairs params = [] → requestUrl endpoint params = UNSPLASH_API_URL ++ endpoint)
    ∧ (queryPairs params ≠ [] →
        buildQuery params ≠ ""
        ∧ requestUrl endpoint params
            = UNSPLASH_API_URL ++ endpoint ++ "?" ++ buildQuery params) := by
  refine ⟨fun xs ys k => ?_, fun entries => ?_, fun n => rfl, rfl, rfl,
    fun h => ?_, fun h => ?_⟩
  · rw [buildQuery, buildQuery, queryPairs, queryPairs,
      List.filterMap_append, List.filterMap_append, List.filterMap_cons]
    simp
  · rw [buildQuery]
    have hqp : ∀ es : List (String × Scalar),
        queryPairs (es.map (fun e => (e.1, some e.2)))
          = es.map (fun e => pairString e.1 e.2) := by
      intro es
      induction es with
      | nil => rfl
      | cons e es2 ih =>
        simp only [List.map_cons, queryPairs, List.filterMap_cons, Option.map_some'] at ih ⊢
        rw [ih]
    rw [hqp entries]
    simp [pairString]
  · have hq : buildQuery params = "" := (buildQuery_eq_empty_iff params).2 h
    rw [requestUrl, if_pos hq]
    simp
  · have hq : buildQuery params ≠ "" := fun hc => h ((buildQuery_eq_empty_iff params).1 hc)
    refine ⟨hq, ?_⟩
    rw [requestUrl, if_neg hq]
    simp [String.append_assoc]

/-- Witness for C4: a skipped `page` entry leaves a bare URL, a present `query`
entry stands behind `?`. -/
theorem makeRequest_query_spec_witness :
    requestUrl "/search/photos" [("page", (none : Option Scalar))]
      = UNSPLASH_API_URL ++ "/search/photos"
    ∧ (buildQuery [("query", some (.str "nature"))] ≠ ""
       ∧ requestUrl "/search/photos" [("query", some (.str "nature"))]
           = UNSPLASH_API_URL ++ "/search/photos" ++ "?"
             ++ buildQuery [("query", some (.str "nature"))]) :=
  ⟨(makeRequest_query_spec "/search/photos" [("page", none)]).2.2.2.2.2.1 (by decide),
   (makeRequest_query_spec "/search/photos" [("query", some (.str "nature"))]).2.2.2.2.2.2
     (by decide)⟩

/-!
Claim C5, transport failures.
-/

/-- C5: a transport failure, thrown as an `Error` with some message before any
response exists, surfaces as an `UnsplashAPIError` without status code and with
the transport-failure message prefix `Network error: `. -/
theorem makeRequest_transport_failure (m syntaxErrMsg : String) :
    ∃ e : UnsplashAPIError,
      makeRequest (.throws (.error m)) syntaxErrMsg = .error e
      ∧ e.statusCode = none
      ∧ e.message = "Network error: " ++ m :=
  ⟨wrapThrown (.error m), rfl, rfl, rfl⟩

/-!
Claim C6, HTTP-level failures.
-/

/-- C6: a non-2xx response throws an `UnsplashAPIError` whose status code is
exactly the response's status and which carries the raw body text; in
particular status 401 with an `errors` array body yields status 401 and
message `Unauthorized`. -/
theorem makeRequest_http_error (status : Nat) (body syntaxErrMsg : String)
    (h : responseOk status = false) :
    (∃ e : UnsplashAPIError,
        makeRequest (.response status body) syntaxErrMsg = .error e
        ∧ e.statusCode = some status
        ∧ e.response = some (.bodyText body))
    ∧ makeRequest (.response 401 "\x7b\"errors\":[\"Unauthorized\"]\x7d") syntaxErrMsg
        = .error ⟨"Unauthorized", some 401,
            some (.bodyText "\x7b\"errors\":[\"Unauthorized\"]\x7d")⟩ := by
  constructor
  · exact ⟨⟨computeErrorMessage status body, some status, some (.bodyText body)⟩,
      by simp [makeRequest, h], rfl, rfl⟩
  · rfl

/-- Witness for C6 at a 404 response. -/
theorem makeRequest_http_error_witness :
    ∃ e : UnsplashAPIError,
      makeRequest (.response 404 "missing") "se" = .error e
      ∧ e.statusCode = some 404
      ∧ e.response = some (.bodyText "missing") :=
  (makeRequest_http_error 404 "missing" "se" (by decide)).1

/-!
Claim C8, the best-effort notifier.
-/

/-- C8: `trackDownload` returns normally on every fetch outcome; a thrown value
is swallowed after being logged, and a response of any status (success or not)
is ignored without error. -/
theorem trackDownload_never_throws :
    (∀ w : FetchOutcome, ∃ log, trackDownload w = .ok log)
    ∧ (∀ t : JsThrown, trackDownload (.throws t) = .ok ["Failed to track download:"])
    ∧ (∀ status body, trackDownload (.response status body) = .ok []) := by
  refine ⟨fun w => ?_, fun t => rfl, fun status body => rfl⟩
  cases w with
  | throws t => exact ⟨["Failed to track download:"], rfl⟩
  | response status body => exact ⟨[], rfl⟩

/-!
Claim C9, malformed success bodies and non-Error throws.
-/

/-- C9: a 2xx response whose body fails to parse as JSON surfaces like a
transport failure, an `UnsplashAPIError` with no status code and the message
prefix `Network error: ` in front of the `SyntaxError` text; and a thrown value
that is not an `Error` instance yields the message `Unknown error occurred`
with no prefix and no status code. -/
theorem makeRequest_malformed_success_body (status : Nat) (body syntaxErrMsg : String)
    (hok : responseOk status = true) (hparse : (jsonParse body).isNone = true) :
    makeRequest (.response status body) syntaxErrMsg
      = .error ⟨"Network error: " ++ syntaxErrMsg, none,
          some (.cause (.error syntaxErrMsg))⟩
    ∧ makeRequest (.throws .nonError) syntaxErrMsg
      = .error ⟨"Unknown error occurred", none, none⟩ := by
  have hp : jsonParse body = none := by
    cases h : jsonParse body with
    | none => rfl
    | some v => rw [h] at hparse; simp at hparse
  exact ⟨by simp [makeRequest, hok, hp, wrapThrown], rfl⟩

/-- Witness for C9 at a 200 response with a non-JSON body. -/
theorem makeRequest_malformed_success_body_witness :
    makeRequest (.response 200 "not json") "Unexpected token"
      = .error ⟨"Network error: " ++ "Unexpected token", none,
          some (.cause (.error "Unexpected token"))⟩
    ∧ makeRequest (.throws .nonError) "Unexpected token"
      = .error ⟨"Unknown error occurred", none, none⟩ :=
  makeRequest_malformed_success_body 200 "not json" "Unexpected token"
    (by decide) (by decide)

/-!
Claim C2, error-message extraction precedence.
-/

/-- C2 (counterexample): the claim sends every unparseable body to the generic
status message, but the code falls back to the raw body text when it is
non-empty: the non-JSON body `oops` under status 500 yields message `oops`,
not `Unsplash API error (500)`. -/
theorem errorMessage_parse_failure_counterexample :
    (jsonParse "oops").isNone = true
    ∧ computeErrorMessage 500 "oops" = "oops"
    ∧ computeErrorMessage 500 "oops" ≠ genericApiMessage 500
    ∧ makeRequest (.response 500 "oops") "se"
        = .error ⟨"oops", some 500, some (.bodyText "oops")⟩ :=
  ⟨rfl, rfl, by decide, rfl⟩

/-- C2 (amended): on a parsed object body the precedence is the first element
of the `errors` array, else the `error` string, else the generic
`Unsplash API error (status)` message; an unparseable body falls back to the
raw body text when non-empty, and only an unparseable empty body falls back to
the generic message. -/
theorem errorMessage_precedence (status : Nat) (body : String)
    (fields : List (String × JsonValue)) :
    ((jsonParse body).isNone = true → body ≠ "" → computeErrorMessage status body = body)
    ∧ computeErrorMessage status "" = genericApiMessage status
    ∧ (jsonParse body = some (.obj fields) →
        (∀ m rest, lookupLast fields "errors" = some (.arr (.str m :: rest)) → m ≠ "" →
          computeErrorMessage status body = m)
        ∧ (lookupLast fields "errors" = none →
            ∀ m, lookupLast fields "error" = some (.str m) → m ≠ "" →
              computeErrorMessage status body = m)
        ∧ (lookupLast fields "errors" = none → lookupLast fields "error" = none →
            computeErrorMessage status body = genericApiMessage status)) := by
  have hne : ∀ s : String, s ≠ "" → s.isEmpty = false := by
    intro s hs
    cases h : s.isEmpty with
    | false => rfl
    | true => exact absurd ((String.isEmpty_iff s).1 (by rw [h])) hs
  refine ⟨fun hparse hbody => ?_, rfl, fun hobj => ⟨fun m rest herrs hm => ?_,
    fun herrs m herr hm => ?_, fun herrs herr => ?_⟩⟩
  · have hp : jsonParse body = none := by
      cases h : jsonParse body with
      | none => rfl
      | some v => rw [h] at hparse; simp at hparse
    rw [computeErrorMessage, hp, hne body hbody]
    simp
  · rw [computeErrorMessage, hobj]
    simp [pickErrorMessage, propAccess, herrs, index0, jsOrVal, jsTruthyOpt,
      truthy, hne m hm, jsToStringAux]
  · rw [computeErrorMessage, hobj]
    simp [pickErrorMessage, propAccess, herrs, herr, index0, jsOrVal, jsTruthyOpt,
      truthy, hne m hm, jsToStringAux]
  · rw [computeErrorMessage, hobj]
    simp [pickErrorMessage, propAccess, herrs, herr, jsOrVal, jsTruthyOpt]

/-- Witness for C2 (amended): the raw-text fallback at body `oops`, the
`errors`-array precedence over a present `error` field, the `error`-field case,
and the generic case at a body with neither field. -/
theorem errorMessage_precedence_witness :
    computeErrorMessage 500 "oops" = "oops"
    ∧ computeErrorMessage 403 "\x7b\"errors\":[\"Rate limited\"],\"error\":\"other\"\x7d"
        = "Rate limited"
    ∧ computeErrorMessage 404 "\x7b\"error\":\"Not found\"\x7d" = "Not found"
    ∧ computeErrorMessage 404 "\x7b\"a\":1\x7d" = genericApiMessage 404 :=
  ⟨(errorMessage_precedence 500 "oops" []).1 (by decide) (by decide),
   ((errorMessage_precedence 403 "\x7b\"errors\":[\"Rate limited\"],\"error\":\"other\"\x7d"
      [("errors", .arr [.str "Rate limited"]), ("error", .str "other")]).2.2 rfl).1
     "Rate limited" [] rfl (by decide),
   (((errorMessage_precedence 404 "\x7b\"error\":\"Not found\"\x7d"
      [("error", .str "Not found")]).2.2 rfl).2.1 rfl "Not found" rfl (by decide)),
   (((errorMessage_precedence 404 "\x7b\"a\":1\x7d"
      [("a", .num "1")]).2.2 rfl).2.2 rfl rfl)⟩

/-!
Claim C7, graceful degradation of the formatters.
-/

/-- Concrete user record with every optional field absent. -/
def bareUser : UnsplashUser :=
  ⟨"u1", "jane", "Jane", "Jane", "Doe", none, none, 5, 3, 1, none, none, none,
   ⟨"s", "m", "l"⟩, ⟨"self", "html", "photos", "likes", "portfolio"⟩⟩

/-- Concrete photo record with every optional field absent. -/
def barePhoto : UnsplashPhoto :=
  ⟨"p1", "2024-01-01T00:00:00Z", "2024-01-02T00:00:00Z", 4000, 3000, "#aabbcc",
   "LKO2?V", none, none, 42, false,
   ⟨"raw", "full", "regular", "small", "thumb"⟩,
   ⟨"self", "html", "download", "dl"⟩, bareUser, none, none⟩

/-- C7 (counterexample): the claim covers `alt_description`, but with it (and
`description`) absent the photo formatter does not omit a line; it emits the
heading with the generic placeholder label, `### Photo`. -/
theorem formatPhoto_placeholder_counterexample :
    barePhoto.alt_description = none
    ∧ (photoParts (fun s => s) barePhoto).head? = some "### Photo" :=
  ⟨rfl, rfl⟩

/-- Concrete photo with description and location present but tags (and
alt_description) absent. -/
def mixedPhoto : UnsplashPhoto :=
  ⟨"p2", "2024-02-01T00:00:00Z", "2024-02-02T00:00:00Z", 800, 600, "#001122",
   "LKX1?W", some "A nice tree", none, 7, true,
   ⟨"raw2", "full2", "regular2", "small2", "thumb2"⟩,
   ⟨"self2", "html2", "download2", "dl2"⟩, bareUser,
   some ⟨some "Berlin", none, none⟩, none⟩

/-- Concrete photo with alt_description and tags present but description and
location absent. -/
def taggedPhoto : UnsplashPhoto :=
  ⟨"p3", "2024-03-01T00:00:00Z", "2024-03-02T00:00:00Z", 1024, 768, "#334455",
   "LKY3?X", none, some "Sunset", 3, false,
   ⟨"r3", "f3", "g3", "s3", "t3"⟩, ⟨"se3", "h3", "d3", "dl3"⟩, bareUser,
   none, some [⟨"sky"⟩, ⟨"sun"⟩]⟩

/-- Concrete user with bio and instagram present but location and portfolio
absent. -/
def mixedUser : UnsplashUser :=
  ⟨"u2", "sam", "Sam", "Sam", "Lee", some "Hi there", none, 1, 2, 3,
   some "sam_ig", none, none, ⟨"s2", "m2", "l2"⟩,
   ⟨"self2", "html2", "photos2", "likes2", "portfolio2"⟩⟩

/-- Forced clash of two character lists: at some index inside both, the
characters differ, so no appended tails can reconcile them. -/
def headsClash : List Char → List Char → Bool
  | c :: cs, d :: ds => if c = d then headsClash cs ds else true
  | _, _ => false

/-- Lists with clashing heads stay different under any appended tails. -/
theorem headsClash_append_ne :
    ∀ (x y : List Char), headsClash x y = true → ∀ u v : List Char, x ++ u ≠ y ++ v := by
  intro x
  induction x with
  | nil =>
    intro y h
    cases y <;> simp [headsClash] at h
  | cons c cs ih =>
    intro y h u v
    cases y with
    | nil => simp [headsClash] at h
    | cons d ds =>
      by_cases hcd : c = d
      · subst hcd
        rw [headsClash, if_pos rfl] at h
        intro he
        simp only [List.cons_append, List.cons.injEq] at he
        exact ih ds h u v he.2
      · intro he
        simp only [List.cons_append, List.cons.injEq] at he
        exact hcd he.1

/-- Strings with clashing literal heads differ, whatever is appended. -/
theorem lit_append_ne (a b s t : String) (h : headsClash a.data b.data = true) :
    a ++ s ≠ b ++ t := by
  intro he
  have hd : a.data ++ s.data = b.data ++ t.data := by
    have h2 := congrArg String.data he
    rwa [String.data_append, String.data_append] at h2
  exact headsClash_append_ne a.data b.data h s.data t.data hd

/-- Reduction of an absent conditional line. -/
theorem optLine_none (lab : String) : optLine lab none = [] := rfl

/-- Reduction of an absent location line. -/
theorem locationLine_none : locationLine none = [] := rfl

/-- Reduction of an absent tags line. -/
theorem tagsLine_none : tagsLine none = [] := rfl

/-- Reduction of an absent Instagram line. -/
theorem instagramLine_none : instagramLine none = [] := rfl

/-- Every member of a conditional line is headed by its label. -/
theorem mem_optLine (lab : String) (fld : Option String) (x : String)
    (hx : x ∈ optLine lab fld) : ∃ s, x = lab ++ s := by
  cases fld with
  | none => simp [optLine] at hx
  | some s =>
    rw [optLine] at hx
    cases h : s.isEmpty with
    | true => rw [h] at hx; simp at hx
    | false => rw [h] at hx; simp at hx; exact ⟨s, hx⟩

/-- Every member of the location segment is headed by its label. -/
theorem mem_locationLine (loc : Option PhotoLocation) (x : String)
    (hx : x ∈ locationLine loc) : ∃ s, x = "**Location**: " ++ s := by
  cases loc with
  | none => simp [locationLine] at hx
  | some l =>
    rw [locationLine] at hx
    exact mem_optLine _ _ _ hx

/-- Every member of the tags segment is headed by its label. -/
theorem mem_tagsLine (tags : Option (List PhotoTag)) (x : String)
    (hx : x ∈ tagsLine tags) : ∃ s, x = "**Tags**: " ++ s := by
  cases tags with
  | none => simp [tagsLine] at hx
  | some ts =>
    rw [tagsLine] at hx
    by_cases h : ts.length > 0
    · rw [if_pos h] at hx
      simp at hx
      exact ⟨_, hx⟩
    · rw [if_neg h] at hx
      simp at hx

/-- Every member of the Instagram segment is headed by its label. -/
theorem mem_instagramLine (ig : Option String) (x : String)
    (hx : x ∈ instagramLine ig) : ∃ s, x = "**Instagram**: @" ++ s := by
  cases ig with
  | none => simp [instagramLine] at hx
  | some s =>
    rw [instagramLine] at hx
    cases h : s.isEmpty with
    | true => rw [h] at hx; simp at hx
    | false => rw [h] at hx; simp at hx; exact ⟨s, hx⟩

/-- C7 (amended): each formatter is a total function of its record, and the
dedicated line of any absent optional field is omitted whatever the other
fields hold — no line of the fragment begins with the absent field's label —
while with every optional field absent the fragments are exactly their
unconditional lines.  An absent `alt_description` is the exception: the
heading line is always emitted, preferring `alt_description`, falling back to
`description` and then to the placeholder label `Photo`. -/
theorem formatters_omit_absent_fields (d : String → String)
    (p : UnsplashPhoto) (u : UnsplashUser) :
    ((p.description = none → ∀ rest, "**Description**: " ++ rest ∉ photoParts d p)
     ∧ (p.location = none → ∀ rest, "**Location**: " ++ rest ∉ photoParts d p)
     ∧ (p.tags = none → ∀ rest, "**Tags**: " ++ rest ∉ photoParts d p))
    ∧ ((u.bio = none → ∀ rest, "**Bio**: " ++ rest ∉ userParts u)
       ∧ (u.location = none → ∀ rest, "**Location**: " ++ rest ∉ userParts u)
       ∧ (u.instagram_username = none → ∀ rest, "**Instagram**: " ++ rest ∉ userParts u)
       ∧ (u.portfolio_url = none → ∀ rest, "**Portfolio**: " ++ rest ∉ userParts u))
    ∧ ((∀ a, p.alt_description = some a → a ≠ "" →
          (photoParts d p).head? = some ("### " ++ a))
       ∧ (p.alt_description = none → ∀ s, p.description = some s → s ≠ "" →
           (photoParts d p).head? = some ("### " ++ s))
       ∧ (p.alt_description = none → p.description = none →
           (photoParts d p).head? = some "### Photo"))
    ∧ ((p.description = none → p.location = none → p.tags = none →
         photoParts d p =
           ["### " ++ jsOrStr p.alt_description "Photo",
            "**ID**: " ++ p.id,
            "**Photographer**: " ++ p.user.name ++ " (@" ++ p.user.username ++ ")",
            "**Dimensions**: " ++ intToString p.width ++ " × " ++ intToString p.height ++ "px",
            "**Color**: " ++ p.color,
            "**Likes**: " ++ intToString p.likes,
            "**Created**: " ++ d p.created_at,
            "**Unsplash URL**: " ++ p.links.html,
            "**Download URL**: " ++ p.urls.regular])
       ∧ (u.bio = none → u.location = none → u.instagram_username = none →
           u.portfolio_url = none →
           userParts u =
             ["### " ++ u.name ++ " (@" ++ u.username ++ ")",
              "**ID**: " ++ u.id,
              "**Total Photos**: " ++ intToString u.total_photos,
              "**Total Likes**: " ++ intToString u.total_likes,
              "**Total Collections**: " ++ intToString u.total_collections,
              "**Unsplash Profile**: " ++ u.links.html])) := by
  have hne : ∀ s : String, s ≠ "" → s.isEmpty = false := by
    intro s hs
    cases h : s.isEmpty with
    | false => rfl
    | true => exact absurd ((String.isEmpty_iff s).1 (by rw [h])) hs
  refine ⟨⟨fun hf rest hmem => ?_, fun hf rest hmem => ?_, fun hf rest hmem => ?_⟩,
    ⟨fun hf rest hmem => ?_, fun hf rest hmem => ?_, fun hf rest hmem => ?_,
     fun hf rest hmem => ?_⟩,
    ⟨fun a ha hae => ?_, fun ha s hs hse => ?_, fun ha hd2 => ?_⟩,
    ⟨fun h1 h2 h3 => ?_, fun h1 h2 h3 h4 => ?_⟩⟩
  · simp only [photoParts] at hmem
    rw [hf] at hmem
    simp only [optLine_none, String.append_assoc, List.mem_append, List.mem_cons,
      List.not_mem_nil, or_false, false_or, or_assoc, List.append_nil, List.nil_append] at hmem
    rcases hmem with h|h|h|h|h|h|h|h|h|h|h <;>
      first
        | exact lit_append_ne _ _ _ _ (by decide) h
        | (obtain ⟨s2, h2⟩ := mem_locationLine _ _ h
           exact lit_append_ne _ _ _ _ (by decide) h2)
        | (obtain ⟨s2, h2⟩ := mem_tagsLine _ _ h
           exact lit_append_ne _ _ _ _ (by decide) h2)
  · simp only [photoParts] at hmem
    rw [hf] at hmem
    simp only [locationLine_none, String.append_assoc, List.mem_append, List.mem_cons,
      List.not_mem_nil, or_false, false_or, or_assoc, List.append_nil, List.nil_append] at hmem
    rcases hmem with h|h|h|h|h|h|h|h|h|h|h <;>
      first
        | exact lit_append_ne _ _ _ _ (by decide) h
        | (obtain ⟨s2, h2⟩ := mem_optLine _ _ _ h
           exact lit_append_ne _ _ _ _ (by decide) h2)
        | (obtain ⟨s2, h2⟩ := mem_tagsLine _ _ h
           exact lit_append_ne _ _ _ _ (by decide) h2)
  · simp only [photoParts] at hmem
    rw [hf] at hmem
    simp only [tagsLine_none, String.append_assoc, List.mem_append, List.mem_cons,
      List.not_mem_nil, or_false, false_or, or_assoc, List.append_nil, List.nil_append] at hmem
    rcases hmem with h|h|h|h|h|h|h|h|h|h|h <;>
      first
        | exact lit_append_ne _ _ _ _ (by decide) h
        | (obtain ⟨s2, h2⟩ := mem_optLine _ _ _ h
           exact lit_append_ne _ _ _ _ (by decide) h2)
        | (obtain ⟨s2, h2⟩ := mem_locationLine _ _ h
           exact lit_append_ne _ _ _ _ (by decide) h2)
  · simp only [userParts] at hmem
    rw [hf] at hmem
    simp only [optLine_none, String.append_assoc, List.mem_append, List.mem_cons,
      List.not_mem_nil, or_false, false_or, or_assoc, List.append_nil, List.nil_append] at hmem
    rcases hmem with h|h|h|h|h|h|h|h|h <;>
      first
        | exact lit_append_ne _ _ _ _ (by decide) h
        | (obtain ⟨s2, h2⟩ := mem_optLine _ _ _ h
           exact lit_append_ne _ _ _ _ (by decide) h2)
  · simp only [userParts] at hmem
    rw [hf] at hmem
    simp only [optLine_none, String.append_assoc, List.mem_append, List.mem_cons,
      List.not_mem_nil, or_false, false_or, or_assoc, List.append_nil, List.nil_append] at hmem
    rcases hmem with h|h|h|h|h|h|h|h|h <;>
      first
        | exact lit_append_ne _ _ _ _ (by decide) h
        | (obtain ⟨s2, h2⟩ := mem_optLine _ _ _ h
           exact lit_append_ne _ _ _ _ (by decide) h2)
  · simp only [userParts] at hmem
    rw [hf] at hmem
    simp only [instagramLine_none, String.append_assoc, List.mem_append, List.mem_cons,
      List.not_mem_nil, or_false, false_or, or_assoc, List.append_nil, List.nil_append] at hmem
    rcases hmem with h|h|h|h|h|h|h|h|h <;>
      first
        | exact lit_append_ne _ _ _ _ (by decide) h
        | (obtain ⟨s2, h2⟩ := mem_optLine _ _ _ h
           exact lit_append_ne _ _ _ _ (by decide) h2)
  · simp only [userParts] at hmem
    rw [hf] at hmem
    simp only [optLine_none, String.append_assoc, List.mem_append, List.mem_cons,
      List.not_mem_nil, or_false, false_or, or_assoc, List.append_nil, List.nil_append] at hmem
    rcases hmem with h|h|h|h|h|h|h|h|h <;>
      first
        | exact lit_append_ne _ _ _ _ (by decide) h
        | (obtain ⟨s2, h2⟩ := mem_optLine _ _ _ h
           exact lit_append_ne _ _ _ _ (by decide) h2)
  · simp [photoParts, jsOrStr, ha, hne a hae]
  · simp [photoParts, jsOrStr, ha, hs, hne s hse]
  · simp only [photoParts, List.cons_append, List.head?_cons, ha, hd2, jsOrStr]
    rfl
  · simp [photoParts, optLine, locationLine, tagsLine, jsOrStr, h1, h2, h3]
  · simp [userParts, optLine, instagramLine, h1, h2, h3, h4]

/-- Witness for C7 (amended), exercising mixed-presence records: tags absent
while description and location are present, description absent while
alt_description and tags are present, user location and portfolio absent while
bio and instagram are present, and the three heading fallbacks. -/
theorem formatters_omit_absent_fields_witness :
    ("**Tags**: " ++ "x" ∉ photoParts (fun s => s) mixedPhoto)
    ∧ ("**Description**: " ++ "x" ∉ photoParts (fun s => s) taggedPhoto)
    ∧ ("**Location**: " ++ "x" ∉ photoParts (fun s => s) taggedPhoto)
    ∧ ("**Location**: " ++ "x" ∉ userParts mixedUser)
    ∧ ("**Portfolio**: " ++ "x" ∉ userParts mixedUser)
    ∧ ("**Bio**: " ++ "x" ∉ userParts bareUser)
    ∧ ("**Instagram**: " ++ "x" ∉ userParts bareUser)
    ∧ (photoParts (fun s => s) taggedPhoto).head? = some ("### " ++ "Sunset")
    ∧ (photoParts (fun s => s) mixedPhoto).head? = some ("### " ++ "A nice tree")
    ∧ (photoParts (fun s => s) barePhoto).head? = some "### Photo"
    ∧ (photoParts (fun s => s) barePhoto).length = 9
    ∧ (userParts bareUser).length = 6 := by
  have hp := formatters_omit_absent_fields (fun s => s) mixedPhoto mixedUser
  have ht := formatters_omit_absent_fields (fun s => s) taggedPhoto bareUser
  have hb := formatters_omit_absent_fields (fun s => s) barePhoto bareUser
  refine ⟨hp.1.2.2 rfl "x", ht.1.1 rfl "x", ht.1.2.1 rfl "x",
    hp.2.1.2.1 rfl "x", hp.2.1.2.2.2 rfl "x",
    hb.2.1.1 rfl "x", hb.2.1.2.2.1 rfl "x",
    ht.2.2.1.1 "Sunset" rfl (by decide),
    hp.2.2.1.2.1 rfl "A nice tree" rfl (by decide),
    hb.2.2.1.2.2 rfl rfl, ?_, ?_⟩
  · rw [hb.2.2.2.1 rfl rfl rfl]
    rfl
  · rw [hb.2.2.2.2 rfl rfl rfl rfl]
    rfl

end Unsplash
